import Mathlib

/-!
Shallow embedding of the conversation and document synchronization controller
of the RAG chatbot frontend (`src/frontend/src/App.jsx`).

Modelling conventions:
* JS `Date` values are modelled as integer time values (the value that
  `Date.getTime()` returns); the ambient clock is passed as a `now` parameter.
* `createMessageId` is nondeterministic (it mixes `Date.now()` with
  `Math.random()`), so freshly generated identifiers are passed in as
  parameters (`fresh`, `userId`, `assistantId`).
* JSON field absence (`undefined`/`null`) is modelled with `Option`; JS
  truthiness of a string field is `some s` with `s` nonempty.
* A settled network call is modelled by an outcome value: a rejected fetch
  (or a body whose JSON parse rejects) and a non-2xx status both reach the
  same `catch` block in the source, and are separate constructors here.
* React state setters are modelled by explicit state passing on `AppState`;
  the functional updates `setX (previous => ...)` in one handler apply in
  program order, which the state-threading reproduces.
-/

namespace RagChat

/-- One transcript entry: the `Message` object shape built in `App.jsx`
(fields `id`, `content`, `role`, `timestamp`, `intent`, and for assistant
messages produced from a server response also `usedDocuments`). -/
structure Message where
  id : String
  content : String
  role : String
  timestamp : Int
  intent : String
  usedDocuments : List String := []
deriving DecidableEq

/-- A registry item: the normalized `Document` shape returned by
`normaliseDocument` in `App.jsx` lines 25-43. -/
structure Document where
  id : String
  name : String
  size : Int
  type : String
  uploadedAt : Int
  path : String
deriving DecidableEq

/-- The raw server-side document record, i.e. exactly the JSON fields that
`normaliseDocument` reads: `id`, `original_name`, `file`, `size`, `type`,
`uploaded_at`. `none` models an absent (or `null`/`undefined`) field; for
`uploaded_at`, `some t` models a truthy date string parsing to time `t`. -/
structure DocRecord where
  id : Option String := none
  original_name : Option String := none
  file : Option String := none
  size : Option Int := none
  type : Option String := none
  uploaded_at : Option Int := none
deriving DecidableEq

/-- Emptiness test on a string, computed on its character list so that
concrete instances evaluate inside proofs. -/
def strEmpty (s : String) : Bool := s.toList.isEmpty

/-- JS truthiness of an optional string field: absent, `null` and the empty
string are falsy, every other string is truthy. -/
def strTruthy : Option String → Bool
  | none => false
  | some s => !(strEmpty s)

/-- Model of JS `String.prototype.trim`: strip leading and trailing
whitespace (character-list implementation of the same operation). -/
def jsTrim (s : String) : String :=
  String.mk (((s.toList.dropWhile Char.isWhitespace).reverse.dropWhile Char.isWhitespace).reverse)

/-- Model of JS `String.prototype.split` with a one-character separator:
the groups of characters between occurrences of the separator, in order. -/
def splitOnChar (sep : Char) : List Char → List (List Char)
  | [] => [[]]
  | c :: cs =>
    match splitOnChar sep cs with
    | [] => [[]]
    | g :: gs => if c == sep then [] :: g :: gs else (c :: g) :: gs

/-- The module-level `INITIAL_ASSISTANT_MESSAGE` constant of `App.jsx`
(its `timestamp: new Date()` is the module-load instant, modelled as 0). -/
def INITIAL_ASSISTANT_MESSAGE : Message :=
  { id := "welcome"
    content := "Bonjour ! Posez votre question et activez le mode RAG pour enrichir les réponses avec vos documents."
    role := "assistant"
    timestamp := 0
    intent := "System" }

/-- Model of `normaliseDocument` (`App.jsx` lines 25-43). `now` is the
current clock value used when `uploaded_at` is falsy, and `fresh` is the
`createMessageId` result used when `id` is nullish. A falsy argument
(`null` record) yields `null`. String coercion `String(id)` is the identity
here because record ids are modelled as strings. -/
def normaliseDocument (now : Int) (fresh : String) : Option DocRecord → Option Document
  | none => none
  | some a =>
    let id := a.id.getD fresh
    let name :=
      if strTruthy a.original_name then a.original_name.getD ""
      else if strTruthy a.file then a.file.getD ""
      else "Document"
    let filePath := if strTruthy a.file then a.file.getD "" else ""
    let extension :=
      if name.toList.contains '.' then
        String.mk ((splitOnChar '.' name.toList).getLast?.getD [])
      else ""
    some
      { id := id
        name := name
        size := a.size.getD 0
        type := if strTruthy a.type then a.type.getD "" else extension
        uploadedAt := a.uploaded_at.getD now
        path := filePath }

/-- Reading a normalized `Document` back through `normaliseDocument`: the
JS function reads the keys `id`, `original_name`, `file`, `size`, `type`,
`uploaded_at`, but a normalized `Document` object only carries `id`, `name`,
`size`, `type`, `uploadedAt`, `path`, so `original_name`, `file` and
`uploaded_at` are absent (`undefined`) on it. -/
def Document.asRecord (d : Document) : DocRecord :=
  { id := some d.id
    size := some d.size
    type := some d.type }

/-- The whole controller state of `App`: the `useState` cells
`documents`, `messages`, `isRagEnabled`, `isLoading`, `refreshKey`,
`statusMessage` (`App.jsx` lines 47-52). -/
structure AppState where
  documents : List Document
  messages : List Message
  isRagEnabled : Bool
  isLoading : Bool
  refreshKey : Nat
  statusMessage : String
deriving DecidableEq

/-- The initial state of a freshly mounted `App` component. -/
def initialState : AppState :=
  { documents := []
    messages := [INITIAL_ASSISTANT_MESSAGE]
    isRagEnabled := false
    isLoading := false
    refreshKey := 0
    statusMessage := "" }

/-- Descending comparison on `uploadedAt`: the order produced by the JS
comparator `(a, b) => b.uploadedAt.getTime() - a.uploadedAt.getTime()`. -/
def docDesc (a b : Document) : Prop := b.uploadedAt ≤ a.uploadedAt

instance : DecidableRel docDesc :=
  fun a b => inferInstanceAs (Decidable (b.uploadedAt ≤ a.uploadedAt))

instance : IsTotal Document docDesc :=
  ⟨fun a b => le_total b.uploadedAt a.uploadedAt⟩

instance : IsTrans Document docDesc :=
  ⟨fun _ _ _ hab hbc => le_trans hbc hab⟩

/-- The settled outcome of the `GET {base}/documents/` fetch as observed by
`fetchDocuments`: `failure` covers a rejected fetch, a non-ok status (the
handler throws) and a JSON body that fails to parse — all reach the same
`catch`; `okArray` is a bare JSON array body, `okEnvelope` a body whose
`results` field is an array, `okOther` any other successfully parsed body
(`Array.isArray` fails for both `data.results` and `data`). List entries are
`Option DocRecord` so a `null` record inside the array is representable. -/
inductive DocsFetchResult where
  | failure
  | okArray (records : List (Option DocRecord))
  | okEnvelope (records : List (Option DocRecord))
  | okOther
deriving DecidableEq

/-- The parsing pipeline of `fetchDocuments` on an array of raw records:
`.map(normaliseDocument).filter(Boolean).sort(descending by uploadedAt)`.
JS `Array.sort` is a stable sort, modelled by insertion sort. -/
def parseDocs (now : Int) (fresh : Nat → String) (records : List (Option DocRecord)) :
    List Document :=
  List.insertionSort docDesc
    ((records.mapIdx (fun i r => normaliseDocument now (fresh i) r)).filterMap id)

/-- Model of `fetchDocuments` (`App.jsx` lines 54-75): the document list the
handler stores with `setDocuments`, as a function of the settled fetch
outcome. Every failure path stores the empty list; no error escapes. -/
def fetchDocuments (now : Int) (fresh : Nat → String) : DocsFetchResult → List Document
  | .failure => []
  | .okOther => []
  | .okArray records => parseDocs now fresh records
  | .okEnvelope records => parseDocs now fresh records

/-- The effect `useEffect(() => setMessages([INITIAL_ASSISTANT_MESSAGE]), [refreshKey])`
(`App.jsx` lines 81-83): what runs on the session state when the refresh
epoch counter changes. It only replaces `messages`. -/
def refreshTranscriptEffect (s : AppState) : AppState :=
  { s with messages := [INITIAL_ASSISTANT_MESSAGE] }

/-- One entry of the chat history payload: `{ role, content }`. -/
structure HistoryEntry where
  role : String
  content : String
deriving DecidableEq

/-- Model of `buildHistoryPayload` (`App.jsx` lines 85-91): keep only
`user`/`assistant` roles, project each entry to `{ role, content }`. -/
def buildHistoryPayload (historyMessages : List Message) : List HistoryEntry :=
  (historyMessages.filter (fun entry => entry.role == "user" || entry.role == "assistant")).map
    (fun entry => { role := entry.role, content := entry.content })

/-- The JSON body of the `POST {base}/chat/` request built by
`handleSendMessage`: `{ message, mode, history }`. -/
structure ChatRequest where
  message : String
  mode : String
  history : List HistoryEntry
deriving DecidableEq

/-- The parsed JSON body of a successful chat response: the fields
`response`, `used_documents`, `intent` that the handler reads. `none` on
`used_documents` also covers a present value that is not an array
(`Array.isArray` fails either way). -/
structure ChatResponseData where
  response : Option String := none
  used_documents : Option (List String) := none
  intent : Option String := none
deriving DecidableEq

/-- The settled outcome of the chat fetch: `netError` is a rejected fetch or
a body whose JSON parse rejects, `badStatus` a response with `ok` false (the
handler throws before reading the body); both reach the same `catch` block.
`success` carries the parsed body. -/
inductive ChatOutcome where
  | netError
  | badStatus
  | success (data : ChatResponseData)
deriving DecidableEq

/-- Status string set in the chat `catch` block (`App.jsx` line 142). -/
def serverErrorStatus : String := "Une erreur est survenue lors de l\x27appel au serveur."

/-- Content of the synthetic fallback assistant message (`App.jsx` line 145). -/
def apologyContent : String := "Une erreur est survenue. Vérifiez votre connexion à l\x27API."

/-- Default assistant content when the backend returns no text (`App.jsx` line 132). -/
def noAnswerContent : String := "Je n\x27ai pas pu formuler de réponse."

/-- The optimistic user message built at the top of `handleSendMessage`
(`App.jsx` lines 100-106); `trimmed` is `content.trim()`. -/
def mkUserMessage (trimmed : String) (userId : String) (now : Int) : Message :=
  { id := userId
    content := trimmed
    role := "user"
    timestamp := now
    intent := "User" }

/-- The optimistic phase of `handleSendMessage` (`App.jsx` lines 108-110):
append the user message, raise the busy flag, clear the status message. -/
def sendMessageOptimistic (userMessage : Message) (s : AppState) : AppState :=
  { s with
    messages := s.messages ++ [userMessage]
    isLoading := true
    statusMessage := "" }

/-- The assistant message built from a successful chat response
(`App.jsx` lines 130-137), with the defaulting rules on `response`,
`used_documents` and `intent`. -/
def mkAssistantMessage (assistantId : String) (now : Int) (data : ChatResponseData) : Message :=
  { id := assistantId
    content := if strTruthy data.response then data.response.getD "" else noAnswerContent
    role := "assistant"
    timestamp := now
    usedDocuments := data.used_documents.getD []
    intent := if strTruthy data.intent then data.intent.getD "" else "Direct" }

/-- The synthetic fallback assistant message appended in the chat `catch`
block (`App.jsx` lines 143-149). -/
def fallbackMessage (errorId : String) (now : Int) : Message :=
  { id := errorId
    content := apologyContent
    role := "assistant"
    timestamp := now
    intent := "Error" }

/-- Model of `handleSendMessage` (`App.jsx` lines 93-156) over one settled
request. Returns the final state together with the request body that was
sent, or `none` when the guard made the call a no-op and no request was
issued. The history payload is built from the captured `messages` snapshot
plus the new user message, exactly as `[...messages, userMessage]` does.
The `finally` block lowers `isLoading` on every settled path. -/
def handleSendMessage (content : String) (outcome : ChatOutcome)
    (userId assistantId : String) (now : Int) (s : AppState) :
    AppState × Option ChatRequest :=
  let trimmed := jsTrim content
  if strEmpty trimmed || s.isLoading then (s, none)
  else
    let userMessage := mkUserMessage trimmed userId now
    let s1 := sendMessageOptimistic userMessage s
    let historyPayload := buildHistoryPayload (s.messages ++ [userMessage])
    let req : ChatRequest :=
      { message := trimmed
        mode := if s.isRagEnabled then "rag" else "direct"
        history := historyPayload }
    match outcome with
    | .success data =>
        ({ s1 with
            messages := s1.messages ++ [mkAssistantMessage assistantId now data]
            isLoading := false }, some req)
    | .netError =>
        ({ s1 with
            statusMessage := serverErrorStatus
            messages := s1.messages ++ [fallbackMessage assistantId now]
            isLoading := false }, some req)
    | .badStatus =>
        ({ s1 with
            statusMessage := serverErrorStatus
            messages := s1.messages ++ [fallbackMessage assistantId now]
            isLoading := false }, some req)

/-- The settled outcome of one `POST {base}/documents/` upload request:
`netError` a rejected fetch or a JSON parse rejection, `badStatus` a
non-ok status (the handler throws), `success` the parsed body — `none`
models a `null` body, which `normaliseDocument` maps to `null` so the file
is silently skipped without stopping the loop. -/
inductive UploadOutcome where
  | netError
  | badStatus
  | success (data : Option DocRecord)
deriving DecidableEq

/-- Status string set in the upload `catch` block (`App.jsx` line 189). -/
def uploadFailStatus : String := "Impossible de téléverser un des fichiers."

/-- Status string set after a batch with at least one success (`App.jsx` line 197). -/
def uploadDoneStatus : String := "Téléversement terminé et documents ingérés."

/-- What the sequential upload loop of `handleUploadDocuments` produced:
the accumulated normalized documents in order, whether the `catch` block ran
(setting the failure status message and breaking), and how many upload
requests were actually issued. -/
structure UploadLoopResult where
  uploaded : List Document
  failStatusSet : Bool
  attempted : Nat
deriving DecidableEq

/-- The `for (const file of files)` loop of `handleUploadDocuments`
(`App.jsx` lines 168-192): one awaited request per file in order; a
successful response is normalized and, when non-null, accumulated; the
first failure sets the failure status and breaks, so later files are never
attempted. `i` indexes the `createMessageId` stream `fresh`. -/
def runUploadLoop (now : Int) (fresh : Nat → String) :
    Nat → List UploadOutcome → UploadLoopResult
  | _, [] => { uploaded := [], failStatusSet := false, attempted := 0 }
  | i, outcome :: rest =>
    match outcome with
    | .success data =>
        let tail := runUploadLoop now fresh (i + 1) rest
        { uploaded := (normaliseDocument now (fresh i) data).toList ++ tail.uploaded
          failStatusSet := tail.failStatusSet
          attempted := tail.attempted + 1 }
    | .netError => { uploaded := [], failStatusSet := true, attempted := 1 }
    | .badStatus => { uploaded := [], failStatusSet := true, attempted := 1 }

/-- Model of `handleUploadDocuments` (`App.jsx` lines 158-201). The list
`outcomes` has one settled server outcome per selected file, in order; the
loop consumes a prefix of it. Returns the final state and the number of
upload requests issued. Status-message writes apply in program order: the
failure write from the `catch` block happens first, and when the batch
accumulated at least one document it is overwritten by the success write. -/
def handleUploadDocuments (now : Int) (fresh : Nat → String)
    (outcomes : List UploadOutcome) (s : AppState) : AppState × Nat :=
  if outcomes.isEmpty then (s, 0)
  else
    let loop := runUploadLoop now fresh 0 outcomes
    let s1 := if loop.failStatusSet then { s with statusMessage := uploadFailStatus } else s
    if loop.uploaded.isEmpty then (s1, loop.attempted)
    else
      ({ s1 with
          documents := loop.uploaded ++ s1.documents
          refreshKey := s1.refreshKey + 1
          statusMessage := uploadDoneStatus }, loop.attempted)

/-- The settled outcome of the `DELETE {base}/documents/{id}/` request:
either a reply with its `ok` flag and numeric status, or a rejected fetch. -/
inductive DeleteOutcome where
  | reply (ok : Bool) (status : Nat)
  | netError
deriving DecidableEq

/-- Status string after a successful delete (`App.jsx` line 212). -/
def deleteOkStatus : String := "Document supprimé."

/-- Status string set in the delete `catch` block (`App.jsx` line 215). -/
def deleteFailStatus : String := "Impossible de supprimer le document."

/-- Model of `handleDeleteDocument` (`App.jsx` lines 203-219). A falsy id
(empty string) returns before any request. Success is `response.ok` or
status 204; then the registry is filtered by id and the success status set.
Any failure only sets the failure status. The boolean reports whether a
request was issued. -/
def handleDeleteDocument (id : String) (outcome : DeleteOutcome) (s : AppState) :
    AppState × Bool :=
  if strEmpty id then (s, false)
  else
    match outcome with
    | .reply ok status =>
        if !ok && status != 204 then
          ({ s with statusMessage := deleteFailStatus }, true)
        else
          ({ s with
              documents := s.documents.filter (fun d => d.id != id)
              statusMessage := deleteOkStatus }, true)
    | .netError => ({ s with statusMessage := deleteFailStatus }, true)

/-- A sample raw record as the server returns it for an ingested PDF. -/
def recC5 : DocRecord :=
  { id := some "1"
    original_name := some "a.pdf"
    file := some "files/a.pdf"
    size := some 100
    uploaded_at := some 5 }

/-- The normalization of `recC5` at clock 5: name from `original_name`,
type inferred from the `.pdf` extension, path from `file`. -/
def docC5 : Document :=
  { id := "1", name := "a.pdf", size := 100, type := "pdf", uploadedAt := 5, path := "files/a.pdf" }

/-- A sample raw record of a successful upload response (no `file` field). -/
def recUp : DocRecord :=
  { id := some "u1"
    original_name := some "a.pdf"
    size := some 100
    uploaded_at := some 10 }

/-- The normalization of `recUp` at clock 0. -/
def docUp : Document :=
  { id := "u1", name := "a.pdf", size := 100, type := "pdf", uploadedAt := 10, path := "" }

/-- A sample registry entry. -/
def docSample : Document :=
  { id := "7", name := "b.txt", size := 3, type := "txt", uploadedAt := 9, path := "files/b.txt" }

/-- A fixed `createMessageId` stream for concrete instantiations. -/
def genName : Nat → String := fun _ => "doc-gen"

/-- A string whose character list is empty is the empty string. -/
theorem strEmpty_eq_empty {s : String} (h : strEmpty s = true) : s = "" := by
  cases s with
  | mk data =>
    cases data with
    | nil => rfl
    | cons c cs => simp [strEmpty, String.toList] at h

/-- C4 counterexample: in a state with the RAG mode on, running the
refresh-epoch effect replaces the transcript with the single welcome entry
but leaves `isRagEnabled` at `true`, so the claimed conjunction (transcript
reset AND `ragEnabled` reset to false) is false at this concrete state. -/
theorem refreshEpoch_claim_counterexample :
    ¬ ((refreshTranscriptEffect { initialState with isRagEnabled := true }).messages
          = [INITIAL_ASSISTANT_MESSAGE]
        ∧ (refreshTranscriptEffect { initialState with isRagEnabled := true }).isRagEnabled
          = false) := by
  decide

/-- C4 amended: whenever the refresh-epoch counter increments, the
transcript is replaced with exactly one synthetic welcome entry; the
`ragEnabled` flag, the document registry and the busy flag are left
unchanged — in particular `ragEnabled` is not reset to false. -/
theorem refreshEpoch_resets_transcript_only (s : AppState) :
    (refreshTranscriptEffect s).messages = [INITIAL_ASSISTANT_MESSAGE]
    ∧ (refreshTranscriptEffect s).isRagEnabled = s.isRagEnabled
    ∧ (refreshTranscriptEffect s).documents = s.documents
    ∧ (refreshTranscriptEffect s).isLoading = s.isLoading :=
  ⟨rfl, rfl, rfl, rfl⟩

/-- C5 counterexample: the record `recC5` normalizes to `docC5`, but
normalizing `docC5` again (reading the keys the function actually reads)
does not give back `docC5`: its `name` collapses to the default
"Document", its `path` to the empty string, and its `uploadedAt` to the
current clock, because `original_name`, `file` and `uploaded_at` are absent
on a normalized Document. -/
theorem normalise_idempotent_counterexample :
    normaliseDocument 5 "gen" (some recC5) = some docC5
    ∧ normaliseDocument 5 "gen" (some docC5.asRecord) ≠ some docC5 := by
  decide

/-- C5 amended: for every raw record that normalizes to a Document `d`,
normalizing `d` again yields a Document with the same `id`, `size` and
`type`, but with `name` equal to the default "Document", `path` empty and
`uploadedAt` equal to the clock of the second normalization — the
normalizer is idempotent only on `id`, `size` and `type`. -/
theorem normalise_renormalise_fields (now now2 : Int) (fresh fresh2 : String)
    (r : DocRecord) (d : Document)
    (_h : normaliseDocument now fresh (some r) = some d) :
    ∃ d2 : Document, normaliseDocument now2 fresh2 (some d.asRecord) = some d2
      ∧ d2.id = d.id ∧ d2.size = d.size ∧ d2.type = d.type
      ∧ d2.name = "Document" ∧ d2.path = "" ∧ d2.uploadedAt = now2 := by
  have hc : ("Document".toList.contains '.') = false := by decide
  refine ⟨_, rfl, ?_, ?_, ?_, ?_, ?_, ?_⟩ <;>
    simp [normaliseDocument, Document.asRecord, strTruthy, hc]
  by_cases hT : strEmpty d.type
  · simp [hT, strEmpty_eq_empty hT]
  · simp [hT]

/-- C5 witness: the renormalization theorem instantiated at `recC5` and
its normalization `docC5`, with a second clock of 7. -/
theorem normalise_renormalise_fields_witness :
    ∃ d2 : Document, normaliseDocument 7 "gen2" (some docC5.asRecord) = some d2
      ∧ d2.id = docC5.id ∧ d2.size = docC5.size ∧ d2.type = docC5.type
      ∧ d2.name = "Document" ∧ d2.path = "" ∧ d2.uploadedAt = 7 :=
  normalise_renormalise_fields 5 7 "gen" "gen2" recC5 docC5 (by decide)

/-- C6: whenever the documents fetch settles with a parsed body that is a
record sequence — bare or enveloped under `results` — the stored registry
is a permutation of the normalizations of the records with `null` ones
dropped, and it is sorted descending by `uploadedAt`; a settled failure
(network, status or parse) stores the empty registry, as does a body of
any other shape, and no error escapes the handler (it is total). -/
theorem fetchDocuments_spec (now : Int) (fresh : Nat → String)
    (records : List (Option DocRecord)) (res : DocsFetchResult)
    (h : res = DocsFetchResult.okArray records ∨ res = DocsFetchResult.okEnvelope records) :
    (fetchDocuments now fresh res).Perm
        ((records.mapIdx (fun i r => normaliseDocument now (fresh i) r)).filterMap id)
    ∧ List.Sorted docDesc (fetchDocuments now fresh res)
    ∧ fetchDocuments now fresh DocsFetchResult.failure = []
    ∧ fetchDocuments now fresh DocsFetchResult.okOther = [] := by
  rcases h with h | h <;> subst h <;>
    exact ⟨List.perm_insertionSort _ _, List.sorted_insertionSort _ _, rfl, rfl⟩

/-- C6 witness: the load specification instantiated at a bare two-record
body holding one valid record and one `null` record. -/
theorem fetchDocuments_spec_witness :
    (fetchDocuments 0 genName (DocsFetchResult.okArray [some recUp, none])).Perm
        (([some recUp, none].mapIdx (fun i r => normaliseDocument 0 (genName i) r)).filterMap id)
    ∧ List.Sorted docDesc (fetchDocuments 0 genName (DocsFetchResult.okArray [some recUp, none]))
    ∧ fetchDocuments 0 genName DocsFetchResult.failure = []
    ∧ fetchDocuments 0 genName DocsFetchResult.okOther = [] :=
  fetchDocuments_spec 0 genName [some recUp, none]
    (DocsFetchResult.okArray [some recUp, none]) (Or.inl rfl)

/-- C3 counterexample: uploading two files where the server accepts the
first and rejects the second ends with `statusMessage` equal to the
success string, not the failure string: the failure write from the `catch`
block is overwritten after the loop because one document was accumulated.
This falsifies the claim that `statusMessage` is a failure string after
the batch completes. -/
theorem upload_failStatus_counterexample :
    (handleUploadDocuments 0 genName
        [UploadOutcome.success (some recUp), UploadOutcome.badStatus] initialState).1.statusMessage
      = uploadDoneStatus
    ∧ uploadDoneStatus ≠ uploadFailStatus := by
  constructor
  · rfl
  · decide

/-- C3 amended: on a batch whose first file is accepted and whose second
is rejected, the first file's normalized Document is prepended to the
registry, exactly two requests are issued (no file after the failing one
is attempted, whatever follows), the failure status is set inside the
loop, but after the batch `statusMessage` holds the success string — the
failure string survives only when no file succeeded — and the refresh
epoch is incremented. -/
theorem upload_first_ok_second_fail (now : Int) (fresh : Nat → String)
    (rec1 : DocRecord) (d1 : Document) (rest : List UploadOutcome) (s : AppState)
    (h : normaliseDocument now (fresh 0) (some rec1) = some d1) :
    (handleUploadDocuments now fresh
        (UploadOutcome.success (some rec1) :: UploadOutcome.badStatus :: rest) s).1.documents
      = d1 :: s.documents
    ∧ (handleUploadDocuments now fresh
        (UploadOutcome.success (some rec1) :: UploadOutcome.badStatus :: rest) s).2 = 2
    ∧ (runUploadLoop now fresh 0
        (UploadOutcome.success (some rec1) :: UploadOutcome.badStatus :: rest)).failStatusSet
      = true
    ∧ (handleUploadDocuments now fresh
        (UploadOutcome.success (some rec1) :: UploadOutcome.badStatus :: rest) s).1.statusMessage
      = uploadDoneStatus
    ∧ (handleUploadDocuments now fresh
        (UploadOutcome.success (some rec1) :: UploadOutcome.badStatus :: rest) s).1.refreshKey
      = s.refreshKey + 1 := by
  refine ⟨?_, ?_, ?_, ?_, ?_⟩ <;>
    simp [handleUploadDocuments, runUploadLoop, h]

/-- C3 witness: the amended upload property instantiated at `recUp` (whose
normalization at clock 0 is `docUp`), an empty tail, and the initial
state. -/
theorem upload_first_ok_second_fail_witness :
    (handleUploadDocuments 0 genName
        (UploadOutcome.success (some recUp) :: UploadOutcome.badStatus :: []) initialState).1.documents
      = docUp :: initialState.documents
    ∧ (handleUploadDocuments 0 genName
        (UploadOutcome.success (some recUp) :: UploadOutcome.badStatus :: []) initialState).2 = 2
    ∧ (runUploadLoop 0 genName 0
        (UploadOutcome.success (some recUp) :: UploadOutcome.badStatus :: [])).failStatusSet
      = true
    ∧ (handleUploadDocuments 0 genName
        (UploadOutcome.success (some recUp) :: UploadOutcome.badStatus :: []) initialState).1.statusMessage
      = uploadDoneStatus
    ∧ (handleUploadDocuments 0 genName
        (UploadOutcome.success (some recUp) :: UploadOutcome.badStatus :: []) initialState).1.refreshKey
      = initialState.refreshKey + 1 :=
  upload_first_ok_second_fail 0 genName recUp docUp [] initialState (by decide)

/-- C8: when the busy flag is already raised, or the input trims to the
empty string, `handleSendMessage` leaves the whole state unchanged (in
particular transcript, `isLoading` and `statusMessage`) and issues no
request. -/
theorem sendMessage_noop (content : String) (outcome : ChatOutcome)
    (userId assistantId : String) (now : Int) (s : AppState)
    (h : s.isLoading = true ∨ strEmpty (jsTrim content) = true) :
    handleSendMessage content outcome userId assistantId now s = (s, none) := by
  rcases h with h | h <;> simp [handleSendMessage, h]

/-- C8 witness: a whitespace-only input on the initial state is a no-op. -/
theorem sendMessage_noop_witness :
    handleSendMessage "   " ChatOutcome.netError "u1" "a1" 3 initialState
      = (initialState, none) :=
  sendMessage_noop "   " ChatOutcome.netError "u1" "a1" 3 initialState (Or.inr (by decide))

/-- C1: for every input whose trimmed form is nonempty, when the busy flag
is down, `handleSendMessage` appends exactly one user-role entry in its
optimistic phase and, after the request settles with any outcome, exactly
one assistant-role entry, so the transcript grows by exactly two and every
existing entry is preserved in place. -/
theorem sendMessage_appends_two (content : String) (outcome : ChatOutcome)
    (userId assistantId : String) (now : Int) (s : AppState)
    (hne : strEmpty (jsTrim content) = false) (hld : s.isLoading = false) :
    ∃ u a : Message, u.role = "user" ∧ a.role = "assistant"
      ∧ (sendMessageOptimistic u s).messages = s.messages ++ [u]
      ∧ (handleSendMessage content outcome userId assistantId now s).1.messages
          = s.messages ++ [u, a]
      ∧ (handleSendMessage content outcome userId assistantId now s).1.messages.length
          = s.messages.length + 2 := by
  refine ⟨mkUserMessage (jsTrim content) userId now, ?_⟩
  cases outcome with
  | success data =>
      refine ⟨mkAssistantMessage assistantId now data, rfl, rfl, rfl, ?_, ?_⟩ <;>
        simp [handleSendMessage, hne, hld, sendMessageOptimistic, mkUserMessage]
  | netError =>
      refine ⟨fallbackMessage assistantId now, rfl, rfl, rfl, ?_, ?_⟩ <;>
        simp [handleSendMessage, hne, hld, sendMessageOptimistic, mkUserMessage]
  | badStatus =>
      refine ⟨fallbackMessage assistantId now, rfl, rfl, rfl, ?_, ?_⟩ <;>
        simp [handleSendMessage, hne, hld, sendMessageOptimistic, mkUserMessage]

/-- C1 witness: the append-two property instantiated at the input
"Bonjour", a successful settle with an empty response body, and the
initial state. -/
theorem sendMessage_appends_two_witness :
    ∃ u a : Message, u.role = "user" ∧ a.role = "assistant"
      ∧ (sendMessageOptimistic u initialState).messages = initialState.messages ++ [u]
      ∧ (handleSendMessage "Bonjour" (ChatOutcome.success {}) "u1" "a1" 3 initialState).1.messages
          = initialState.messages ++ [u, a]
      ∧ (handleSendMessage "Bonjour" (ChatOutcome.success {}) "u1" "a1" 3 initialState).1.messages.length
          = initialState.messages.length + 2 :=
  sendMessage_appends_two "Bonjour" (ChatOutcome.success {}) "u1" "a1" 3 initialState
    (by decide) rfl

/-- C2: on a failed chat request — a rejected fetch or a non-2xx status —
the handler sets the connectivity-error status string, appends the fixed
apology assistant entry tagged with the `Error` intent while keeping the
optimistic user entry, and on every settled outcome (success or failure)
the busy flag ends down. -/
theorem sendMessage_failure_spec (content : String) (outcome : ChatOutcome)
    (userId assistantId : String) (now : Int) (s : AppState)
    (hne : strEmpty (jsTrim content) = false) (hld : s.isLoading = false) :
    (handleSendMessage content outcome userId assistantId now s).1.isLoading = false
    ∧ ((outcome = ChatOutcome.netError ∨ outcome = ChatOutcome.badStatus) →
        (handleSendMessage content outcome userId assistantId now s).1.statusMessage
            = serverErrorStatus
        ∧ (handleSendMessage content outcome userId assistantId now s).1.messages
            = s.messages
              ++ [mkUserMessage (jsTrim content) userId now, fallbackMessage assistantId now]
        ∧ (fallbackMessage assistantId now).content = apologyContent
        ∧ (fallbackMessage assistantId now).intent = "Error"
        ∧ (fallbackMessage assistantId now).role = "assistant") := by
  cases outcome <;>
    simp [handleSendMessage, hne, hld, sendMessageOptimistic, mkUserMessage, fallbackMessage]

/-- C2 witness: the failure specification instantiated at the input
"Bonjour", a rejected fetch, and the initial state. -/
theorem sendMessage_failure_spec_witness :
    (handleSendMessage "Bonjour" ChatOutcome.netError "u1" "a1" 3 initialState).1.isLoading = false
    ∧ ((ChatOutcome.netError = ChatOutcome.netError ∨ ChatOutcome.netError = ChatOutcome.badStatus) →
        (handleSendMessage "Bonjour" ChatOutcome.netError "u1" "a1" 3 initialState).1.statusMessage
            = serverErrorStatus
        ∧ (handleSendMessage "Bonjour" ChatOutcome.netError "u1" "a1" 3 initialState).1.messages
            = initialState.messages
              ++ [mkUserMessage (jsTrim "Bonjour") "u1" 3, fallbackMessage "a1" 3]
        ∧ (fallbackMessage "a1" 3).content = apologyContent
        ∧ (fallbackMessage "a1" 3).intent = "Error"
        ∧ (fallbackMessage "a1" 3).role = "assistant") :=
  sendMessage_failure_spec "Bonjour" ChatOutcome.netError "u1" "a1" 3 initialState
    (by decide) rfl

/-- C7: when a request is issued, its body has `mode` equal to "rag"
exactly when the RAG flag is on and "direct" otherwise, `message` equal to
the trimmed input, and `history` equal to the post-append transcript (the
one produced by the optimistic phase, hence including the new user entry)
filtered to user/assistant roles and projected to role/content pairs, in
transcript order. -/
theorem sendMessage_request_spec (content : String) (outcome : ChatOutcome)
    (userId assistantId : String) (now : Int) (s : AppState)
    (hne : strEmpty (jsTrim content) = false) (hld : s.isLoading = false) :
    ∃ r : ChatRequest,
      (handleSendMessage content outcome userId assistantId now s).2 = some r
      ∧ (r.mode = "rag" ↔ s.isRagEnabled = true)
      ∧ (r.mode = "direct" ↔ s.isRagEnabled = false)
      ∧ r.message = jsTrim content
      ∧ r.history
          = buildHistoryPayload
              ((sendMessageOptimistic (mkUserMessage (jsTrim content) userId now) s).messages)
      ∧ r.history
          = ((s.messages ++ [mkUserMessage (jsTrim content) userId now]).filter
                (fun m => m.role == "user" || m.role == "assistant")).map
              (fun m => { role := m.role, content := m.content }) := by
  refine ⟨{ message := jsTrim content
            mode := if s.isRagEnabled then "rag" else "direct"
            history := buildHistoryPayload (s.messages ++ [mkUserMessage (jsTrim content) userId now]) },
          ?_, ?_, ?_, rfl, ?_, ?_⟩
  · cases outcome <;> simp [handleSendMessage, hne, hld]
  · cases hR : s.isRagEnabled <;> simp [hR]
  · cases hR : s.isRagEnabled <;> simp [hR]
  · simp [sendMessageOptimistic]
  · simp [buildHistoryPayload]

/-- C7 witness: the request specification instantiated at the input
" Salut ", a successful settle, and the initial state (RAG off, so the
mode is "direct"). -/
theorem sendMessage_request_spec_witness :
    ∃ r : ChatRequest,
      (handleSendMessage " Salut " (ChatOutcome.success {}) "u1" "a1" 3 initialState).2 = some r
      ∧ (r.mode = "rag" ↔ initialState.isRagEnabled = true)
      ∧ (r.mode = "direct" ↔ initialState.isRagEnabled = false)
      ∧ r.message = jsTrim " Salut "
      ∧ r.history
          = buildHistoryPayload
              ((sendMessageOptimistic (mkUserMessage (jsTrim " Salut ") "u1" 3) initialState).messages)
      ∧ r.history
          = ((initialState.messages ++ [mkUserMessage (jsTrim " Salut ") "u1" 3]).filter
                (fun m => m.role == "user" || m.role == "assistant")).map
              (fun m => { role := m.role, content := m.content }) :=
  sendMessage_request_spec " Salut " (ChatOutcome.success {}) "u1" "a1" 3 initialState
    (by decide) rfl

/-- C9: for every truthy (nonempty) id, a delete reply with `ok` true or
status 204 removes exactly the registry entries whose id equals the given
id and sets the success status; an unsuccessful reply, or a rejected
request, leaves the registry untouched and sets the failure status. -/
theorem deleteDocument_spec (id : String) (ok : Bool) (status : Nat) (s : AppState)
    (hid : strEmpty id = false) :
    ((ok = true ∨ status = 204) →
        handleDeleteDocument id (DeleteOutcome.reply ok status) s
          = ({ s with
                documents := s.documents.filter (fun d => d.id != id)
                statusMessage := deleteOkStatus }, true)
        ∧ ∀ d, d ∈ (handleDeleteDocument id (DeleteOutcome.reply ok status) s).1.documents
            ↔ (d ∈ s.documents ∧ d.id ≠ id))
    ∧ ((ok = false ∧ status ≠ 204) →
        handleDeleteDocument id (DeleteOutcome.reply ok status) s
          = ({ s with statusMessage := deleteFailStatus }, true))
    ∧ handleDeleteDocument id DeleteOutcome.netError s
        = ({ s with statusMessage := deleteFailStatus }, true) := by
  refine ⟨?_, ?_, ?_⟩
  · rintro (hok | h204)
    · subst hok
      constructor
      · simp [handleDeleteDocument, hid]
      · intro d
        simp [handleDeleteDocument, hid, List.mem_filter, bne_iff_ne]
    · subst h204
      constructor
      · simp [handleDeleteDocument, hid]
      · intro d
        simp [handleDeleteDocument, hid, List.mem_filter, bne_iff_ne]
  · rintro ⟨hok, h204⟩
    subst hok
    simp [handleDeleteDocument, hid, h204]
  · simp [handleDeleteDocument, hid]

/-- C9 witness: the delete specification instantiated at id "1", a 200
reply with `ok` true, and the initial state. -/
theorem deleteDocument_spec_witness :
    ((true = true ∨ 200 = 204) →
        handleDeleteDocument "1" (DeleteOutcome.reply true 200) initialState
          = ({ initialState with
                documents := initialState.documents.filter (fun d => d.id != "1")
                statusMessage := deleteOkStatus }, true)
        ∧ ∀ d, d ∈ (handleDeleteDocument "1" (DeleteOutcome.reply true 200) initialState).1.documents
            ↔ (d ∈ initialState.documents ∧ d.id ≠ "1"))
    ∧ ((true = false ∧ 200 ≠ 204) →
        handleDeleteDocument "1" (DeleteOutcome.reply true 200) initialState
          = ({ initialState with statusMessage := deleteFailStatus }, true))
    ∧ handleDeleteDocument "1" DeleteOutcome.netError initialState
        = ({ initialState with statusMessage := deleteFailStatus }, true) :=
  deleteDocument_spec "1" true 200 initialState (by decide)

/-- C10: for every truthy id matching no document in the registry, a
successful delete reply leaves the registry exactly unchanged while still
setting the success status message. -/
theorem deleteDocument_missing_id (id : String) (ok : Bool) (status : Nat) (s : AppState)
    (hid : strEmpty id = false) (hsucc : ok = true ∨ status = 204)
    (habsent : ∀ d ∈ s.documents, d.id ≠ id) :
    (handleDeleteDocument id (DeleteOutcome.reply ok status) s).1.documents = s.documents
    ∧ (handleDeleteDocument id (DeleteOutcome.reply ok status) s).1.statusMessage
        = deleteOkStatus := by
  have hfilter : s.documents.filter (fun d => d.id != id) = s.documents := by
    rw [List.filter_eq_self]
    intro d hd
    simpa [bne_iff_ne] using habsent d hd
  rcases hsucc with hok | h204
  · subst hok
    constructor
    · simp [handleDeleteDocument, hid, hfilter]
    · simp [handleDeleteDocument, hid]
  · subst h204
    constructor
    · simp [handleDeleteDocument, hid, hfilter]
    · simp [handleDeleteDocument, hid]

/-- C10 witness: deleting id "1" from a registry holding only `docSample`
(id "7"), on a 200 reply with `ok` true, keeps the registry unchanged and
sets the success status. -/
theorem deleteDocument_missing_id_witness :
    (handleDeleteDocument "1" (DeleteOutcome.reply true 200)
        { initialState with documents := [docSample] }).1.documents
      = ({ initialState with documents := [docSample] } : AppState).documents
    ∧ (handleDeleteDocument "1" (DeleteOutcome.reply true 200)
        { initialState with documents := [docSample] }).1.statusMessage
      = deleteOkStatus :=
  deleteDocument_missing_id "1" true 200 { initialState with documents := [docSample] }
    (by decide) (Or.inl rfl) (by decide)

end RagChat
